import Mathlib

/-!
Shallow embedding of the batch fetch-and-sample pipeline in
`Frame Extraction/download_vimeo_frames.py`.

The external world (yt-dlp, OpenCV, the filesystem) is modelled by behavior
records: a `FetchBehavior` describes what one yt-dlp invocation does
(exit code, whether the output file exists afterwards), a `CaptureBehavior`
describes what OpenCV reports for one media file (whether it opens, its
frame count, which of the selected frame reads succeed, and which positions
`random.sample` would draw).  The functions `download_video`,
`capture_random_frames`, `secure_delete_file`, `process_video` and
`batch_process_videos` are direct translations of the Python functions of
the same names, evaluated over those behavior records.  The thread pool and
the lock-guarded stats dict are modelled by a sequential fold
(`runDispatched`): each increment is a single guarded update, so the final
counts are order-independent and the fold computes the drained value.
-/

namespace VimeoFrames

/-- Terminal outcome bucket: which key of the shared `stats` dict
`process_video` increments for an item.  `partialSuccess` models the
`'partial'` key (printed as "Partial success" in the summary). -/
inductive Outcome where
  | successful
  | partialSuccess
  | failed
deriving DecidableEq, Repr

/-- The `stats` dict created by `batch_process_videos`:
`{'total': len(df), 'successful': 0, 'partial': 0, 'failed': 0}`. -/
structure Stats where
  total : Nat
  successful : Nat
  partialSuccess : Nat
  failed : Nat
deriving DecidableEq, Repr

/-- Observable behavior of one yt-dlp invocation inside `download_video`:
`returncode = none` models a `TimeoutExpired` or other exception raised by
`subprocess.run`; `fileOnDisk` is whether the output path
`{video_number}_temp.mp4` exists on disk after the invocation (yt-dlp may
leave a partial file even on failure). -/
structure FetchBehavior where
  returncode : Option Int
  fileOnDisk : Bool
deriving DecidableEq, Repr

/-- `download_video`: returns the path (modelled as `true`) iff
`process.returncode == 0 and os.path.exists(output_path)`; every other case
(non-zero exit, missing file, timeout, exception) returns `None`
(modelled as `false`). -/
def download_video (f : FetchBehavior) : Bool :=
  f.returncode == some 0 && f.fileOnDisk

/-- Observable behavior of OpenCV on one downloaded file inside
`capture_random_frames`: `openRaises` models an unexpected exception raised
inside the function body (e.g. by `cv2.VideoCapture` or `os.makedirs`),
which its own `except` clause turns into a `False` return; `opened` is
`cap.isOpened()`; `frame_count` is `int(cap.get(cv2.CAP_PROP_FRAME_COUNT))`;
`reads` lists, for the selected frame indices in order, whether `cap.read()`
returned a frame (`ret`); `randomSample` is the sorted draw that
`random.sample(range(frame_count), num_frames)` would return. -/
structure CaptureBehavior where
  openRaises : Bool
  opened : Bool
  frame_count : Int
  reads : List Bool
  randomSample : List Nat
deriving DecidableEq, Repr

/-- What one call of `capture_random_frames` leaves behind: its boolean
return value, the number of frames actually written by `cv2.imwrite`, and
whether the per-item output directory was created. -/
structure CaptureResult where
  success : Bool
  written : Nat
  dirCreated : Bool
deriving DecidableEq, Repr

/-- The frame-index selection of `capture_random_frames`:
`[int(i * frame_count / num_frames) for i in range(num_frames)]` when
`frame_count < num_frames`, otherwise
`sorted(random.sample(range(frame_count), num_frames))`.  Python's
`int(i * frame_count / num_frames)` on non-negative operands is floor
division, i.e. `Nat` division. -/
def frame_indices (frame_count num_frames : Nat) (randomSample : List Nat) : List Nat :=
  if frame_count < num_frames then
    (List.range num_frames).map (fun i => i * frame_count / num_frames)
  else
    randomSample

/-- `capture_random_frames`: fails (returns `False`, writes nothing,
creates no directory) when the capture raises, when the file does not open,
or when `frame_count <= 0`; otherwise it creates the output directory,
iterates over the selected indices writing a frame whenever `cap.read()`
succeeds (a failed read is only logged), and returns `True` at the end of
the loop regardless of how many frames were written. -/
def capture_random_frames (c : CaptureBehavior) (num_frames : Nat) : CaptureResult :=
  if c.openRaises then
    { success := false, written := 0, dirCreated := false }
  else if !c.opened then
    { success := false, written := 0, dirCreated := false }
  else if c.frame_count ≤ 0 then
    { success := false, written := 0, dirCreated := false }
  else
    let idxs := frame_indices c.frame_count.toNat num_frames c.randomSample
    let written := ((idxs.zip c.reads).filter (fun p => p.2)).length
    { success := true, written := written, dirCreated := true }

/-- Result of `secure_delete_file`: the boolean it returns, and whether the
file still exists on disk afterwards. -/
structure DeleteResult where
  ret : Bool
  fileStillExists : Bool
deriving DecidableEq, Repr

/-- The fallible `os.remove` call inside `secure_delete_file`:
`removeFails = true` models a raised `OSError` (permission error etc.), in
which case the file is still present. -/
def os_remove (removeFails : Bool) : Except String Bool :=
  if removeFails then Except.error "removal error" else Except.ok false

/-- `secure_delete_file`: if the file exists, try `os.remove` and return
`True` on success; any exception is swallowed by the `except` clause and
turned into a `False` return; if the file does not exist, return `False`
without touching anything. -/
def secure_delete_file (fileExists removeFails : Bool) : DeleteResult :=
  if fileExists then
    match os_remove removeFails with
    | Except.ok _ => { ret := true, fileStillExists := false }
    | Except.error _ => { ret := false, fileStillExists := true }
  else
    { ret := false, fileStillExists := false }

/-- The external world seen by one `process_video` call:
`unexpectedError` models an exception raised inside `process_video`'s own
`try` body outside the inner handlers (e.g. during the rate-limit sleep),
which its `except` clause catches; `deleteFails` is the removal error fed
to `secure_delete_file`. -/
structure ItemBehavior where
  unexpectedError : Bool
  fetch : FetchBehavior
  capture : CaptureBehavior
  deleteFails : Bool
deriving DecidableEq, Repr

/-- What one `process_video` call leaves behind: the stats key it
increments, whether the temporary download file remains on disk, and its
boolean return value. -/
structure ItemResult where
  outcome : Outcome
  tempFileOnDisk : Bool
  retVal : Bool
deriving DecidableEq, Repr

/-- `process_video`: rate-limit, then download; on a falsy download result
increment `'failed'` and return (performing no cleanup, so whatever file
yt-dlp left stays on disk); otherwise capture frames, delete the download,
and increment `'successful'` when `capture_random_frames` returned `True`,
else `'partial'`.  An exception caught by the outer `except` increments
`'failed'`. -/
def process_video (b : ItemBehavior) (num_frames : Nat) : ItemResult :=
  if b.unexpectedError then
    { outcome := Outcome.failed, tempFileOnDisk := false, retVal := false }
  else if !(download_video b.fetch) then
    { outcome := Outcome.failed, tempFileOnDisk := b.fetch.fileOnDisk, retVal := false }
  else
    let cr := capture_random_frames b.capture num_frames
    let del := secure_delete_file true b.deleteFails
    { outcome := if cr.success then Outcome.successful else Outcome.partialSuccess,
      tempFileOnDisk := del.fileStillExists,
      retVal := cr.success }

/-- One row of the parsed CSV: `vimeo_link = none` models a NaN cell. -/
structure ManifestRow where
  video_number : Nat
  vimeo_link : Option String
deriving DecidableEq, Repr

/-- The parsed CSV: its column names and its rows. -/
structure Manifest where
  columns : List String
  rows : List ManifestRow
deriving DecidableEq, Repr

/-- The dispatch guard of `batch_process_videos`:
`not pd.isna(row["vimeo_link"]) and row["vimeo_link"].strip() != ""` is
false exactly when the cell is missing or all-whitespace. -/
def isBlankURL : Option String → Bool
  | none => true
  | some s => s.toList.all (fun c => c.isWhitespace)

/-- A row is submitted to the pool iff its URL is present and non-blank. -/
def rowDispatched (r : ManifestRow) : Bool := !(isBlankURL r.vimeo_link)

/-- `if limit: df = df.head(limit)` — the truncation is applied only when
`limit` is truthy, so both `None` and `0` leave the frame untouched. -/
def applyLimit : Option Nat → List ManifestRow → List ManifestRow
  | none, rows => rows
  | some 0, rows => rows
  | some (n+1), rows => (rows).take (n+1)

/-- One lock-guarded `stats[key] += 1` update. -/
def recordOutcome (s : Stats) : Outcome → Stats
  | Outcome.successful => { s with successful := s.successful + 1 }
  | Outcome.partialSuccess => { s with partialSuccess := s.partialSuccess + 1 }
  | Outcome.failed => { s with failed := s.failed + 1 }

/-- The drained thread pool: every submitted item runs `process_video`
exactly once and performs its single guarded increment; since each update
is one atomic increment, the final counts do not depend on scheduling
order, so the sequential fold computes the value read after the drain
barrier. -/
def runDispatched (num_frames : Nat) : Stats → List ItemBehavior → Stats
  | s, [] => s
  | s, b :: bs => runDispatched num_frames (recordOutcome s (process_video b num_frames).outcome) bs

/-- The rows of the (possibly limited) frame that pass the dispatch guard. -/
def dispatchedRows (m : Manifest) (limit : Option Nat) : List ManifestRow :=
  (applyLimit limit m.rows).filter rowDispatched

/-- `batch_process_videos`: aborts with no stats, no dispatch and no
summary (`none`) when a required column is missing; otherwise limits the
frame, creates `stats` with `total = len(df)` counted before the blank-URL
filter, submits exactly the rows passing the dispatch guard, and returns
the drained stats (the printed summary is a pure read of this value). -/
def batch_process_videos (m : Manifest) (beh : ManifestRow → ItemBehavior)
    (limit : Option Nat) (num_frames : Nat) : Option Stats :=
  if "video_number" ∈ m.columns ∧ "vimeo_link" ∈ m.columns then
    let df := applyLimit limit m.rows
    some (runDispatched num_frames
      { total := df.length, successful := 0, partialSuccess := 0, failed := 0 }
      ((df.filter rowDispatched).map beh))
  else
    none

/-! Concrete behaviors used in counterexamples and witnesses. -/

/-- A capture behavior for a healthy long video whose selected reads
succeed or fail according to `reads`. -/
def capOK (reads : List Bool) : CaptureBehavior :=
  { openRaises := false, opened := true, frame_count := 100, reads := reads,
    randomSample := [10, 20, 30, 40, 50] }

/-- Item A of the spec scenario: fetch succeeds, 5/5 frames written. -/
def behA : ItemBehavior :=
  { unexpectedError := false, fetch := { returncode := some 0, fileOnDisk := true },
    capture := capOK [true, true, true, true, true], deleteFails := false }

/-- Item B of the spec scenario: fetch fails (non-zero exit, no file). -/
def behB : ItemBehavior :=
  { unexpectedError := false, fetch := { returncode := some 1, fileOnDisk := false },
    capture := capOK [], deleteFails := false }

/-- Item C of the spec scenario: fetch succeeds, 2/5 frames written. -/
def behC : ItemBehavior :=
  { unexpectedError := false, fetch := { returncode := some 0, fileOnDisk := true },
    capture := capOK [true, true, false, false, false], deleteFails := false }

/-- The 3-row manifest of the spec scenario. -/
def scenarioManifest : Manifest :=
  { columns := ["video_number", "vimeo_link"],
    rows := [{ video_number := 1, vimeo_link := some "A" },
             { video_number := 2, vimeo_link := some "B" },
             { video_number := 3, vimeo_link := some "C" }] }

/-- The world for the spec scenario, keyed by row identifier. -/
def scenarioBeh (r : ManifestRow) : ItemBehavior :=
  if r.video_number = 1 then behA else if r.video_number = 2 then behB else behC

/-! Helper lemmas shared by several claims. -/

/-- Each guarded increment raises exactly one terminal counter by one and
leaves `total` unchanged. -/
theorem recordOutcome_counts (s : Stats) (o : Outcome) :
    (recordOutcome s o).successful + (recordOutcome s o).partialSuccess
        + (recordOutcome s o).failed
      = s.successful + s.partialSuccess + s.failed + 1
    ∧ (recordOutcome s o).total = s.total := by
  cases o <;> simp [recordOutcome] <;> omega

/-- Draining the pool adds exactly one terminal increment per submitted
item and never touches `total`. -/
theorem runDispatched_counts (n : Nat) (bs : List ItemBehavior) : ∀ (s : Stats),
    (runDispatched n s bs).successful + (runDispatched n s bs).partialSuccess
        + (runDispatched n s bs).failed
      = s.successful + s.partialSuccess + s.failed + bs.length
    ∧ (runDispatched n s bs).total = s.total := by
  induction bs with
  | nil => intro s; simp [runDispatched]
  | cons b bs ih =>
      intro s
      have h1 := recordOutcome_counts s (process_video b n).outcome
      have h2 := ih (recordOutcome s (process_video b n).outcome)
      simp only [runDispatched, List.length_cons]
      omega

/-- `capture_random_frames` returns `True` exactly when nothing raised, the
file opened and the frame count is positive — independently of how many
frames were actually written. -/
theorem capture_success_iff (c : CaptureBehavior) (n : Nat) :
    (capture_random_frames c n).success = true ↔
      (c.openRaises = false ∧ c.opened = true ∧ 0 < c.frame_count) := by
  unfold capture_random_frames
  cases h1 : c.openRaises <;> cases h2 : c.opened <;> by_cases h3 : c.frame_count ≤ 0
  all_goals simp [h1, h2, h3]
  all_goals omega

/-- On the fetch-success path the recorded outcome is dictated by the
boolean returned from the capture step. -/
theorem process_video_outcome_of_fetch_ok (b : ItemBehavior) (n : Nat)
    (h1 : b.unexpectedError = false) (h2 : download_video b.fetch = true) :
    (process_video b n).outcome
      = (if (capture_random_frames b.capture n).success then Outcome.successful
         else Outcome.partialSuccess) := by
  simp [process_video, h1, h2]

/-! Claim theorems. -/

/-- C1 counterexample: in the spec's 3-row scenario (A fetches and writes
5/5 samples, B's fetch fails, C fetches and writes 2/5 samples) the code
produces `{total:3, successful:2, partial:0, failed:1}`, not the claimed
`{total:3, successful:1, partial:1, failed:1}`: item C's capture call
returns `True` despite writing only 2 of 5 frames, so C is counted
`successful`. -/
theorem c1_counterexample :
    batch_process_videos scenarioManifest scenarioBeh none 5
        = some { total := 3, successful := 2, partialSuccess := 0, failed := 1 }
    ∧ (capture_random_frames behC.capture 5).written = 2
    ∧ ({ total := 3, successful := 2, partialSuccess := 0, failed := 1 } : Stats)
        ≠ { total := 3, successful := 1, partialSuccess := 1, failed := 1 } := by
  refine ⟨by decide, by decide, by decide⟩

/-- C1 amended: for an item whose fetch succeeds, the recorded outcome is
determined by the boolean returned by `capture_random_frames`, not by the
number of samples written: `successful` iff the capture returned `True`
(which it does whenever the media opens with a positive frame count,
regardless of the written count), else `partial`; the scenario therefore
yields `{total:3, successful:2, partial:0, failed:1}`. -/
theorem c1_outcome_by_capture_flag (b : ItemBehavior) (n : Nat)
    (h1 : b.unexpectedError = false) (h2 : download_video b.fetch = true) :
    ((process_video b n).outcome = Outcome.successful ↔
        (capture_random_frames b.capture n).success = true)
    ∧ ((process_video b n).outcome = Outcome.partialSuccess ↔
        (capture_random_frames b.capture n).success = false)
    ∧ ((capture_random_frames b.capture n).success = true ↔
        (b.capture.openRaises = false ∧ b.capture.opened = true ∧ 0 < b.capture.frame_count))
    ∧ batch_process_videos scenarioManifest scenarioBeh none 5
        = some { total := 3, successful := 2, partialSuccess := 0, failed := 1 } := by
  have h := process_video_outcome_of_fetch_ok b n h1 h2
  refine ⟨?_, ?_, capture_success_iff b.capture n, by decide⟩
  · rw [h]; cases hs : (capture_random_frames b.capture n).success <;> simp [hs]
  · rw [h]; cases hs : (capture_random_frames b.capture n).success <;> simp [hs]

/-- C1 witness: the amended statement instantiated at item C of the
scenario. -/
theorem c1_outcome_by_capture_flag_witness :
    ((process_video behC 5).outcome = Outcome.successful ↔
        (capture_random_frames behC.capture 5).success = true)
    ∧ ((process_video behC 5).outcome = Outcome.partialSuccess ↔
        (capture_random_frames behC.capture 5).success = false)
    ∧ ((capture_random_frames behC.capture 5).success = true ↔
        (behC.capture.openRaises = false ∧ behC.capture.opened = true
          ∧ 0 < behC.capture.frame_count))
    ∧ batch_process_videos scenarioManifest scenarioBeh none 5
        = some { total := 3, successful := 2, partialSuccess := 0, failed := 1 } :=
  c1_outcome_by_capture_flag behC 5 (by decide) (by decide)

/-- An item whose fetch succeeds but whose media reports frame count 0. -/
def behZeroFrames : ItemBehavior :=
  { unexpectedError := false, fetch := { returncode := some 0, fileOnDisk := true },
    capture := { openRaises := false, opened := true, frame_count := 0, reads := [],
                 randomSample := [] },
    deleteFails := false }

/-- C2 counterexample: an item that fetches successfully but whose media
reports frame count 0 does fail sampling entirely (zero samples, no output
directory), yet `process_video` records it as `partial`, not `failed`,
because the capture step's `False` return lands in the `else` branch that
increments `stats['partial']`. -/
theorem c2_counterexample :
    capture_random_frames behZeroFrames.capture 5
        = { success := false, written := 0, dirCreated := false }
    ∧ (process_video behZeroFrames 5).outcome = Outcome.partialSuccess
    ∧ Outcome.partialSuccess ≠ Outcome.failed := by
  refine ⟨by decide, by decide, by decide⟩

/-- C2 amended: for an item whose fetch succeeds but whose media reports a
non-positive addressable frame count, the sampling call fails entirely
(zero samples written, output directory not created) and the item's
recorded outcome is `partial`, not `failed`. -/
theorem c2_zero_frames_is_partial (b : ItemBehavior) (n : Nat)
    (h1 : b.unexpectedError = false) (h2 : download_video b.fetch = true)
    (h3 : b.capture.frame_count ≤ 0) :
    capture_random_frames b.capture n
        = { success := false, written := 0, dirCreated := false }
    ∧ (process_video b n).outcome = Outcome.partialSuccess := by
  have hcap : capture_random_frames b.capture n
      = { success := false, written := 0, dirCreated := false } := by
    unfold capture_random_frames
    cases hr : b.capture.openRaises <;> cases ho : b.capture.opened <;> simp [h3]
  refine ⟨hcap, ?_⟩
  rw [process_video_outcome_of_fetch_ok b n h1 h2, hcap]
  simp

/-- C2 witness: the amended statement instantiated at the zero-frame
item. -/
theorem c2_zero_frames_is_partial_witness :
    capture_random_frames behZeroFrames.capture 5
        = { success := false, written := 0, dirCreated := false }
    ∧ (process_video behZeroFrames 5).outcome = Outcome.partialSuccess :=
  c2_zero_frames_is_partial behZeroFrames 5 (by decide) (by decide) (by decide)

/-- A manifest whose single row has a blank URL. -/
def blankRowManifest : Manifest :=
  { columns := ["video_number", "vimeo_link"],
    rows := [{ video_number := 1, vimeo_link := some "" }] }

/-- C3 counterexample: with a 1-row manifest whose only URL is blank, the
row is excluded from dispatch and from every terminal bucket, but
`stats['total']` is `len(df)` computed before the blank-URL filter, so
`total` is 1 while the number of dispatched items is 0 — `total` counts
manifest rows, not dispatched items. -/
theorem c3_counterexample :
    batch_process_videos blankRowManifest (fun _ => behA) none 5
        = some { total := 1, successful := 0, partialSuccess := 0, failed := 0 }
    ∧ (dispatchedRows blankRowManifest none).length = 0
    ∧ (1 : Nat) ≠ 0 := by
  refine ⟨by decide, by decide, by decide⟩

/-- C3 amended: rows with a missing or blank URL are excluded from
dispatch and are never counted in any terminal bucket (the terminal sum
equals the dispatched count), but `total` equals the number of manifest
rows after the limit, blank-URL rows included. -/
theorem c3_blank_rows_counted_in_total (m : Manifest) (beh : ManifestRow → ItemBehavior)
    (limit : Option Nat) (n : Nat) (s : Stats)
    (h : batch_process_videos m beh limit n = some s) :
    s.total = (applyLimit limit m.rows).length
    ∧ s.successful + s.partialSuccess + s.failed = (dispatchedRows m limit).length := by
  unfold batch_process_videos at h
  by_cases hc : "video_number" ∈ m.columns ∧ "vimeo_link" ∈ m.columns
  · rw [if_pos hc] at h
    have hs := Option.some.inj h
    have hrun := runDispatched_counts n
      (((applyLimit limit m.rows).filter rowDispatched).map beh)
      { total := (applyLimit limit m.rows).length, successful := 0, partialSuccess := 0,
        failed := 0 }
    rw [hs] at hrun
    simpa [dispatchedRows, List.length_map] using hrun.symm
  · rw [if_neg hc] at h
    exact absurd h (by simp)

/-- C3 witness: the amended statement instantiated at the blank-row
manifest. -/
theorem c3_blank_rows_counted_in_total_witness :
    ({ total := 1, successful := 0, partialSuccess := 0, failed := 0 } : Stats).total
        = (applyLimit none blankRowManifest.rows).length
    ∧ ({ total := 1, successful := 0, partialSuccess := 0, failed := 0 } : Stats).successful
        + ({ total := 1, successful := 0, partialSuccess := 0, failed := 0 } : Stats).partialSuccess
        + ({ total := 1, successful := 0, partialSuccess := 0, failed := 0 } : Stats).failed
        = (dispatchedRows blankRowManifest none).length :=
  c3_blank_rows_counted_in_total blankRowManifest (fun _ => behA) none 5 _ (by decide)

/-- An item whose fetch fails with a non-zero exit while yt-dlp has left a
partial file at the temporary path. -/
def behFetchFailLeftover : ItemBehavior :=
  { unexpectedError := false, fetch := { returncode := some 1, fileOnDisk := true },
    capture := capOK [], deleteFails := false }

/-- C5 counterexample: when the fetch fails but yt-dlp left a partial file
at the temporary path, the outcome is `failed` as claimed, yet the file is
still on disk afterwards: the fetch-failure branch of `process_video`
returns before `secure_delete_file` is reached, so cleanup is not
unconditional. -/
theorem c5_counterexample :
    (process_video behFetchFailLeftover 5).outcome = Outcome.failed
    ∧ (process_video behFetchFailLeftover 5).tempFileOnDisk = true := by
  refine ⟨by decide, by decide⟩

/-- C5 amended: a fetch failure records outcome `failed`, but no cleanup
runs on that path: the temporary file remains on disk exactly when the
failed fetch left one; `secure_delete_file` is invoked only after a
successful fetch (on that path the file remains only if removal itself
fails). -/
theorem c5_fetch_failure_no_cleanup (b : ItemBehavior) (n : Nat)
    (h1 : b.unexpectedError = false) :
    (download_video b.fetch = false →
      (process_video b n).outcome = Outcome.failed
      ∧ (process_video b n).tempFileOnDisk = b.fetch.fileOnDisk)
    ∧ (download_video b.fetch = true →
      (process_video b n).tempFileOnDisk
        = (secure_delete_file true b.deleteFails).fileStillExists) := by
  constructor
  · intro h2
    constructor <;> simp [process_video, h1, h2]
  · intro h2
    simp [process_video, h1, h2]

/-- C5 witness: the amended statement instantiated at the leftover-file
item, with the fetch-failure hypothesis discharged there. -/
theorem c5_fetch_failure_no_cleanup_witness :
    (process_video behFetchFailLeftover 5).outcome = Outcome.failed
    ∧ (process_video behFetchFailLeftover 5).tempFileOnDisk
        = behFetchFailLeftover.fetch.fileOnDisk :=
  (c5_fetch_failure_no_cleanup behFetchFailLeftover 5 (by decide)).1 (by decide)

/-- C4 confirmed: after the pool drains, the three terminal counters sum
to the number of dispatched items, and each `process_video` call performs
exactly one guarded increment of exactly one terminal counter — on every
control path, the fetch-failure and unexpected-exception paths included
(every path yields exactly one `Outcome`, and `recordOutcome` adds one to
exactly the matching counter). -/
theorem c4_terminal_sum_invariant (m : Manifest) (beh : ManifestRow → ItemBehavior)
    (limit : Option Nat) (n : Nat) (s : Stats)
    (h : batch_process_videos m beh limit n = some s) :
    s.successful + s.partialSuccess + s.failed = (dispatchedRows m limit).length
    ∧ ∀ (t : Stats) (b : ItemBehavior),
        (recordOutcome t (process_video b n).outcome).successful
          + (recordOutcome t (process_video b n).outcome).partialSuccess
          + (recordOutcome t (process_video b n).outcome).failed
        = t.successful + t.partialSuccess + t.failed + 1 := by
  constructor
  · unfold batch_process_videos at h
    by_cases hc : "video_number" ∈ m.columns ∧ "vimeo_link" ∈ m.columns
    · rw [if_pos hc] at h
      have hs := Option.some.inj h
      have hrun := runDispatched_counts n
        (((applyLimit limit m.rows).filter rowDispatched).map beh)
        { total := (applyLimit limit m.rows).length, successful := 0, partialSuccess := 0,
          failed := 0 }
      rw [hs] at hrun
      have h1 := hrun.1
      simp only [List.length_map] at h1
      simpa [dispatchedRows] using h1
    · rw [if_neg hc] at h
      exact absurd h (by simp)
  · exact fun t b => (recordOutcome_counts t (process_video b n).outcome).1

/-- C4 witness: the invariant instantiated at the 3-row scenario, whose
drained stats are `{total:3, successful:2, partial:0, failed:1}`. -/
theorem c4_terminal_sum_invariant_witness :
    2 + 0 + 1 = (dispatchedRows scenarioManifest none).length :=
  (c4_terminal_sum_invariant scenarioManifest scenarioBeh none 5
    { total := 3, successful := 2, partialSuccess := 0, failed := 1 } (by decide)).1

/-- An item whose fetch succeeds but whose capture step raises an
unexpected exception (e.g. `cv2.VideoCapture` or `os.makedirs` raising). -/
def behCaptureRaises : ItemBehavior :=
  { unexpectedError := false, fetch := { returncode := some 0, fileOnDisk := true },
    capture := { openRaises := true, opened := true, frame_count := 100, reads := [],
                 randomSample := [] },
    deleteFails := false }

/-- C6 counterexample: an unexpected exception raised inside the capture
step is caught by `capture_random_frames`'s own handler, not at the item
boundary, and the item is classified `partial`, not `failed`: the `False`
return lands in `process_video`'s `else` branch. -/
theorem c6_counterexample :
    (process_video behCaptureRaises 5).outcome = Outcome.partialSuccess
    ∧ Outcome.partialSuccess ≠ Outcome.failed := by
  refine ⟨by decide, by decide⟩

/-- C6 amended: no exception escapes an item (`process_video` always
yields a terminal result and the pool continues with the remaining items),
and an unexpected exception reaching `process_video`'s own handler is
classified `failed`; but an unexpected exception raised inside the capture
step is caught by that step's handler and classified `partial` instead. -/
theorem c6_exception_containment (b bCap : ItemBehavior) (n : Nat)
    (h : b.unexpectedError = true)
    (h1 : bCap.unexpectedError = false) (h2 : download_video bCap.fetch = true)
    (h3 : bCap.capture.openRaises = true) :
    (process_video b n).outcome = Outcome.failed
    ∧ (∀ (s : Stats) (bs : List ItemBehavior),
        runDispatched n s (b :: bs)
          = runDispatched n (recordOutcome s Outcome.failed) bs)
    ∧ (process_video bCap n).outcome = Outcome.partialSuccess := by
  refine ⟨by simp [process_video, h], ?_, ?_⟩
  · intro s bs
    simp [runDispatched, process_video, h]
  · rw [process_video_outcome_of_fetch_ok bCap n h1 h2]
    simp [capture_random_frames, h3]

/-- C6 witness: the amended statement at a rate-limit-step exception item
and a capture-step exception item. -/
theorem c6_exception_containment_witness :
    (process_video { behA with unexpectedError := true } 5).outcome = Outcome.failed
    ∧ (∀ (s : Stats) (bs : List ItemBehavior),
        runDispatched 5 s ({ behA with unexpectedError := true } :: bs)
          = runDispatched 5 (recordOutcome s Outcome.failed) bs)
    ∧ (process_video behCaptureRaises 5).outcome = Outcome.partialSuccess :=
  c6_exception_containment { behA with unexpectedError := true } behCaptureRaises 5
    (by decide) (by decide) (by decide) (by decide)

/-- C7 confirmed: when the media's frame count is positive but smaller
than the requested count, `capture_random_frames` selects exactly
`num_frames` positions by the spacing formula
`int(i * frame_count / num_frames)` for `i` in `0..num_frames-1`,
independently of the random-sample draw; frame count 3 with request 5
selects `[0, 0, 1, 1, 2]`. -/
theorem c7_evenly_spaced (fc n : Nat) (rs : List Nat) (_h1 : 0 < fc) (h2 : fc < n) :
    frame_indices fc n rs = (List.range n).map (fun i => i * fc / n)
    ∧ (frame_indices fc n rs).length = n
    ∧ (∀ rs', frame_indices fc n rs = frame_indices fc n rs')
    ∧ frame_indices 3 5 rs = [0, 0, 1, 1, 2] := by
  refine ⟨by simp [frame_indices, h2], ?_, ?_, ?_⟩
  · simp [frame_indices, h2]
  · intro rs'
    simp [frame_indices, h2]
  · unfold frame_indices
    rw [if_pos (by norm_num)]
    rfl

/-- C7 witness: the spacing statement instantiated at frame count 3,
request 5. -/
theorem c7_evenly_spaced_witness :
    frame_indices 3 5 [] = (List.range 5).map (fun i => i * 3 / 5)
    ∧ (frame_indices 3 5 []).length = 5
    ∧ (∀ rs', frame_indices 3 5 [] = frame_indices 3 5 rs')
    ∧ frame_indices 3 5 [] = [0, 0, 1, 1, 2] :=
  c7_evenly_spaced 3 5 [] (by decide) (by decide)

/-- C8 confirmed: cleanup is total and idempotent — a removal error is
swallowed into a `False` return (never propagated, by the `except`
clause), invoking cleanup on an already-removed path returns `False` and
changes nothing, a second cleanup after a successful one likewise, and the
item's outcome classification never depends on whether cleanup failed. -/
theorem c8_cleanup_idempotent (e r r' v : Bool) (b : ItemBehavior) (n : Nat) :
    (secure_delete_file e true).ret = false
    ∧ secure_delete_file false r = { ret := false, fileStillExists := false }
    ∧ secure_delete_file (secure_delete_file e false).fileStillExists r'
        = { ret := false, fileStillExists := false }
    ∧ (process_video { b with deleteFails := v } n).outcome
        = (process_video { b with deleteFails := false } n).outcome := by
  refine ⟨?_, ?_, ?_, ?_⟩
  · cases e <;> simp [secure_delete_file, os_remove]
  · simp [secure_delete_file]
  · cases e <;> simp [secure_delete_file, os_remove]
  · cases hu : b.unexpectedError <;> cases hd : download_video b.fetch <;>
      simp [process_video, hu, hd]

/-- A manifest lacking both required column names. -/
def noColumnManifest : Manifest :=
  { columns := ["number", "link"],
    rows := [{ video_number := 1, vimeo_link := some "u" }] }

/-- C9 confirmed: when either required column is missing, the run aborts
before any dispatch — `batch_process_videos` returns `none`: the stats
dict is never created, no item runs and no summary is produced. -/
theorem c9_missing_columns_abort (m : Manifest) (beh : ManifestRow → ItemBehavior)
    (limit : Option Nat) (n : Nat)
    (h : "video_number" ∉ m.columns ∨ "vimeo_link" ∉ m.columns) :
    batch_process_videos m beh limit n = none := by
  unfold batch_process_videos
  rw [if_neg]
  tauto

/-- C9 witness: the abort at a concrete two-column manifest with neither
required name. -/
theorem c9_missing_columns_abort_witness :
    batch_process_videos noColumnManifest (fun _ => behA) none 5 = none :=
  c9_missing_columns_abort noColumnManifest (fun _ => behA) none 5 (Or.inl (by decide))

/-- C10 confirmed: a row limit of 0 is falsy in `if limit:`, so the
truncation is skipped and the batch behaves exactly as with no limit — all
rows are processed, not zero rows. -/
theorem c10_limit_zero_is_no_limit (m : Manifest) (beh : ManifestRow → ItemBehavior)
    (n : Nat) :
    applyLimit (some 0) m.rows = m.rows
    ∧ batch_process_videos m beh (some 0) n = batch_process_videos m beh none n :=
  ⟨rfl, rfl⟩

end VimeoFrames
